import Mathlib

/-!
The go-cli repository: the `count` / `list` sub-command dispatcher (`prog2` in `cmd/main.go`)

`main` calls `prog2` only.  `prog2` builds two `flag.FlagSet`s, dispatches on
`os.Args[1]`, lets the selected flag set parse `os.Args[2:]`, and then runs a
chain of `if … { PrintDefaults(); os.Exit(1) }` checks before printing one
formatted line.

The development below embeds

* the part of Go's standard `flag` package that `prog2` drives
  (`FlagSet.String`, `FlagSet.Bool`, `FlagSet.Parse`, `FlagSet.parseOne`,
  `strconv.ParseBool`, the `ExitOnError` policy), and
* `prog2` itself, as a function from `os.Args` to what the process printed and
  where it stopped.

Go strings are byte strings; the embedding uses Lean strings and inspects them
character by character.  The only bytes the code compares against are the
ASCII characters `-` and `=`, which in UTF-8 never occur inside a multi-byte
character, so both views agree on every well-formed argument.
-/

namespace GoCli

/-! ## The `flag` package -/

/-- The variable a flag writes to: `*string` for `FlagSet.String`, `*bool` for
`FlagSet.Bool`. -/
inductive Value where
  | str (s : String)
  | bool (b : Bool)
  deriving DecidableEq, Repr

/-- One entry of `FlagSet.formal` (`flag.Flag`): name, usage text and the
current contents of the variable the flag points to. -/
structure Flag where
  name : String
  usage : String
  value : Value
  deriving DecidableEq, Repr

/-- The fields of `flag.FlagSet` that `prog2` observes: the set's name, the
`parsed` bit behind `Parsed()`, the registered flags and the arguments not yet
consumed. -/
structure FlagSet where
  name : String
  parsed : Bool
  formal : List Flag
  args : List String
  deriving DecidableEq, Repr

/-- The errors `parseOne` can produce (`failf` messages, and `ErrHelp`). -/
inductive FlagError where
  /-- `bad flag syntax: %s` -/
  | badSyntax (s : String)
  /-- `flag provided but not defined: -%s` -/
  | notDefined (name : String)
  /-- `flag needs an argument: -%s` -/
  | needsArgument (name : String)
  /-- `invalid boolean value %q for -%s: %v` -/
  | invalidBool (value name : String)
  /-- `ErrHelp`: `-h` or `-help` given and no such flag is defined. -/
  | help
  deriving DecidableEq, Repr

/-- The call `flag.NewFlagSet(name, flag.ExitOnError)`. -/
def NewFlagSet (name : String) : FlagSet :=
  { name := name, parsed := false, formal := [], args := [] }

/-- The call `f.String(name, value, usage)`, that is `f.StringVar(new(string), name,
value, usage)`: registers a string flag whose variable starts at `value`. -/
def FlagSet.StringVar (f : FlagSet) (name value usage : String) : FlagSet :=
  { f with formal := f.formal ++ [{ name := name, usage := usage, value := .str value }] }

/-- The call `f.Bool(name, value, usage)`, that is `f.BoolVar(new(bool), name, value,
usage)`: registers a boolean flag whose variable starts at `value`. -/
def FlagSet.BoolVar (f : FlagSet) (name : String) (value : Bool) (usage : String) : FlagSet :=
  { f with formal := f.formal ++ [{ name := name, usage := usage, value := .bool value }] }

/-- The map lookup `f.formal[name]`. -/
def FlagSet.lookup (f : FlagSet) (name : String) : Option Flag :=
  f.formal.find? (fun fl => fl.name = name)

/-- Dereference of the `*string` returned by `f.String(name, …)`. -/
def FlagSet.getString (f : FlagSet) (name : String) : String :=
  match f.lookup name with
  | some { value := .str s, .. } => s
  | _ => ""

/-- Dereference of the `*bool` returned by `f.Bool(name, …)`. -/
def FlagSet.getBool (f : FlagSet) (name : String) : Bool :=
  match f.lookup name with
  | some { value := .bool b, .. } => b
  | _ => false

/-- Store `v` in the variable of the flag called `name`. -/
def FlagSet.store (f : FlagSet) (name : String) (v : Value) : FlagSet :=
  { f with formal := f.formal.map (fun fl => if fl.name = name then { fl with value := v } else fl) }

/-- The function `strconv.ParseBool`. -/
def ParseBool (str : String) : Option Bool :=
  if str = "1" ∨ str = "t" ∨ str = "T" ∨ str = "true" ∨ str = "TRUE" ∨ str = "True" then
    some true
  else if str = "0" ∨ str = "f" ∨ str = "F" ∨ str = "false" ∨ str = "FALSE" ∨ str = "False" then
    some false
  else
    none

/-- The scan `for i := 0; i < len(cs); i++ { if cs[i] == '=' … }`: the part before
the first `=` and the part after it, when there is one. -/
def cutAtEquals : List Char → Option (List Char × List Char)
  | [] => none
  | c :: cs =>
    if c = '=' then some ([], cs)
    else match cutAtEquals cs with
      | some (n, v) => some (c :: n, v)
      | none => none

/-- The loop of `parseOne` that splits `name=value`; it starts at index 1
("equals cannot be first").  Returns `(name, hasValue, value)`. -/
def splitNameValue : List Char → List Char × Bool × List Char
  | [] => ([], false, [])
  | c :: cs =>
    match cutAtEquals cs with
    | some (n, v) => (c :: n, true, v)
    | none => (c :: cs, false, [])

/-- The method `(*FlagSet).parseOne`, from the point where `s` has been recognised as
`-name…` or `--name…` and `name` is what follows the minus signs; `rest` is
`f.args[1:]`.  Returns the updated flag set, `seen` and the error. -/
def FlagSet.parseFlag (f : FlagSet) (s : String) (name : List Char) (rest : List String) :
    FlagSet × Bool × Option FlagError :=
  match name with
  | [] => (f, false, some (.badSyntax s))
  | c :: _ =>
    if c = '-' ∨ c = '=' then (f, false, some (.badSyntax s))
    else
      -- it's a flag. does it have an argument?
      let f := { f with args := rest }
      let (nm, hasValue, value) := splitNameValue name
      let nm := String.mk nm
      let value := String.mk value
      match f.lookup nm with
      | none =>
        if nm = "help" ∨ nm = "h" then (f, false, some .help)
        else (f, false, some (.notDefined nm))
      | some fl =>
        match fl.value with
        | .bool _ =>
          -- special case: doesn't need an arg
          match ParseBool (if hasValue then value else "true") with
          | some b => (f.store nm (.bool b), true, none)
          | none => (f, false, some (.invalidBool value nm))
        | .str _ =>
          -- It must have a value, which might be the next argument.
          if hasValue then (f.store nm (.str value), true, none)
          else match f.args with
            | v :: rest' => ({ f with args := rest' }.store nm (.str v), true, none)
            | [] => (f, false, some (.needsArgument nm))

/-- The method `(*FlagSet).parseOne`: consume at most one flag (and its value) from the
front of `f.args`.  Returns the updated flag set, `seen` and the error. -/
def FlagSet.parseOne (f : FlagSet) : FlagSet × Bool × Option FlagError :=
  match f.args with
  | [] => (f, false, none)
  | s :: rest =>
    match s.data with
    | '-' :: '-' :: [] => ({ f with args := rest }, false, none)   -- "--" terminates the flags
    | '-' :: '-' :: name => f.parseFlag s name rest
    | '-' :: c :: name => f.parseFlag s (c :: name) rest
    | _ => (f, false, none)                                         -- len(s) < 2 || s[0] != '-'

/-- The `for` loop of `(*FlagSet).Parse`, run for at most `fuel` iterations.
`none` means the fuel ran out before the loop ended. -/
def FlagSet.parseLoop : Nat → FlagSet → Option (Except FlagError FlagSet)
  | 0, _ => none
  | fuel + 1, f =>
    match f.parseOne with
    | (f', true, _) => parseLoop fuel f'
    | (f', false, none) => some (.ok f')
    | (_, false, some err) => some (.error err)

/-- The method `(*FlagSet).Parse(arguments)`, up to the `switch f.errorHandling`:
`.ok f'` is the `return nil` path with the flag set as parsing left it,
`.error err` is the path that enters the switch.  Every iteration that
continues has consumed an argument, so `len(arguments) + 1` iterations are
enough (see `Parse_isSome`). -/
def FlagSet.Parse (f : FlagSet) (arguments : List String) : Option (Except FlagError FlagSet) :=
  FlagSet.parseLoop (arguments.length + 1) { f with parsed := true, args := arguments }

/-! ## `prog2` -/

/-- What the process writes, in order. -/
inductive Event where
  /-- `fmt.Println(s)`. -/
  | println (s : String)
  /-- `PrintDefaults()` on the flag set called `flagSet`. -/
  | printDefaults (flagSet : String)
  /-- What `flag` itself prints when parsing the set `flagSet` fails: the `failf`
  message (none for `ErrHelp`) followed by the usage. -/
  | flagFailure (flagSet : String) (err : FlagError)
  /-- `fmt.Printf("textPtr: %s, metricPtr: %s, uniquePtr: %t\n", …)`, line 212. -/
  | listLine (text metric : String) (unique : Bool)
  /-- `fmt.Printf("textPtr: %s, metricPtr: %s, substringPtr: %v, uniquePtr: %t\n", …)`,
  lines 239-242. -/
  | countLine (text metric substring : String) (unique : Bool)
  deriving DecidableEq, Repr

/-- Where the process stopped. -/
inductive Halt where
  /-- `prog2` (and `main`) returned. -/
  | returned
  /-- `os.Exit(1)` at line 180. -/
  | missingSubcommand
  /-- `os.Exit(1)` at line 194. -/
  | unknownSubcommand
  /-- `os.Exit(0)` inside `Parse` (`ExitOnError`, `err == ErrHelp`). -/
  | flagHelp
  /-- `os.Exit(2)` inside `Parse` (`ExitOnError`, any other error). -/
  | flagParseError
  /-- `os.Exit(1)` at line 203. -/
  | listTextRequired
  /-- `os.Exit(1)` at line 209. -/
  | listMetricChoice
  /-- `os.Exit(1)` at line 219. -/
  | countTextRequired
  /-- `os.Exit(1)` at line 224. -/
  | countSubstringRequired
  /-- `os.Exit(1)` at line 230. -/
  | countSubstringForbidden
  /-- `os.Exit(1)` at line 236. -/
  | countMetricChoice
  /-- Run-time panic: index or slice bound out of range. -/
  | indexOutOfRange
  deriving DecidableEq, Repr

/-- The exit status of the process. -/
def Halt.status : Halt → Nat
  | .returned => 0
  | .missingSubcommand => 1
  | .unknownSubcommand => 1
  | .flagHelp => 0
  | .flagParseError => 2
  | .listTextRequired => 1
  | .listMetricChoice => 1
  | .countTextRequired => 1
  | .countSubstringRequired => 1
  | .countSubstringForbidden => 1
  | .countMetricChoice => 1
  | .indexOutOfRange => 2

/-- A finished run: everything printed, and where the process stopped. -/
structure Outcome where
  out : List Event
  halt : Halt
  deriving DecidableEq, Repr

/-- The `switch f.errorHandling` of `Parse` under `ExitOnError`. -/
def exitOnError (flagSet : String) (err : FlagError) : Outcome :=
  { out := [.flagFailure flagSet err],
    halt := if err = .help then .flagHelp else .flagParseError }

/-- Lines 158 and 163-168: the `count` flag set with its four flags. -/
def countCommand : FlagSet :=
  (((NewFlagSet "count").StringVar "text" "" "Text to parse. (Required)").StringVar
    "metric" "chars" "Metric {chars|words|lines|substring}. (Required)").StringVar
    "substring" "" "The substring to be counted. Required for --metric=substring"
    |>.BoolVar "unique" false "Measure unique values of a metric."

/-- Lines 159 and 171-173: the `list` flag set with its three flags. -/
def listCommand : FlagSet :=
  (((NewFlagSet "list").StringVar "text" "" "Text to parse. (Required)").StringVar
    "metric" "chars" "Metric <chars|words|lines>. (Required)").BoolVar
    "unique" false "Measure unique values of a metric."

/-- Line 206: the keys of `metricChoices` in the `list` block. -/
def listMetricChoices : List String := ["chars", "words", "lines"]

/-- Line 233: the keys of `metricChoices` in the `count` block. -/
def countMetricChoices : List String := ["chars", "words", "lines", "substring"]

/-- Lines 199-213, the `if listCommand.Parsed()` block.  `.error o` is a run that
ended inside the block, `.ok out` is the output so far when control leaves it. -/
def listBlock (listCommand : FlagSet) (out : List Event) : Except Outcome (List Event) :=
  if listCommand.parsed then
    -- Required Flags
    if listCommand.getString "text" = "" then
      .error { out := out ++ [.printDefaults listCommand.name], halt := .listTextRequired }
    -- Choice flag
    else if listCommand.getString "metric" ∉ listMetricChoices then
      .error { out := out ++ [.printDefaults listCommand.name], halt := .listMetricChoice }
    -- Print
    else
      .ok (out ++ [.listLine (listCommand.getString "text") (listCommand.getString "metric")
        (listCommand.getBool "unique")])
  else
    .ok out

/-- Lines 215-243, the `if countCommand.Parsed()` block.  The choice lookup at
line 234 reads `*listMetricPtr`, so the block also takes the `list` flag set. -/
def countBlock (countCommand listCommand : FlagSet) (out : List Event) :
    Except Outcome (List Event) :=
  if countCommand.parsed then
    -- Required Flags
    if countCommand.getString "text" = "" then
      .error { out := out ++ [.printDefaults countCommand.name], halt := .countTextRequired }
    -- If the metric flag is substring, the substring flag is required
    else if countCommand.getString "metric" = "substring" ∧
        countCommand.getString "substring" = "" then
      .error { out := out ++ [.printDefaults countCommand.name], halt := .countSubstringRequired }
    -- If the metric flag is not substring, the substring flag must not be used
    else if countCommand.getString "metric" ≠ "substring" ∧
        countCommand.getString "substring" ≠ "" then
      .error { out := out ++ [.println "--substring may only be used with --metric=substring.",
                 .printDefaults countCommand.name],
               halt := .countSubstringForbidden }
    -- Choice flag
    else if listCommand.getString "metric" ∉ countMetricChoices then
      .error { out := out ++ [.printDefaults countCommand.name], halt := .countMetricChoice }
    -- Print
    else
      .ok (out ++ [.countLine (countCommand.getString "text") (countCommand.getString "metric")
        (countCommand.getString "substring") (countCommand.getBool "unique")])
  else
    .ok out

/-- Lines 197-245: the two blocks in sequence, then `prog2` returns. -/
def validate (countCommand listCommand : FlagSet) : Outcome :=
  match listBlock listCommand [] with
  | .error o => o
  | .ok out =>
    match countBlock countCommand listCommand out with
    | .error o => o
    | .ok out => { out := out, halt := .returned }

/-- The slice expression `os.Args[2:]`: panics when `len(os.Args) < 2`. -/
def sliceFrom2 (osArgs : List String) : Option (List String) :=
  if 2 ≤ osArgs.length then some (osArgs.drop 2) else none

/-- The function `prog2` as run on `os.Args`.  `none` only if the fuel of a `Parse` loop
ran out, which `prog2_isSome` excludes. -/
def prog2 (osArgs : List String) : Option Outcome :=
  -- Verify that a subcommand has been provided
  if osArgs.length < 2 then
    some { out := [.println "list or count subcommand is required"], halt := .missingSubcommand }
  else
    -- Switch on the subcommand
    match osArgs.get? 1, sliceFrom2 osArgs with
    | some sub, some rest =>
      if sub = "list" then
        match listCommand.Parse rest with
        | none => none
        | some (.error err) => some (exitOnError listCommand.name err)
        | some (.ok listCommand') => some (validate countCommand listCommand')
      else if sub = "count" then
        match countCommand.Parse rest with
        | none => none
        | some (.error err) => some (exitOnError countCommand.name err)
        | some (.ok countCommand') => some (validate countCommand' listCommand)
      else
        -- flag.PrintDefaults() on flag.CommandLine, the set named os.Args[0]
        some { out := [.printDefaults (osArgs.headD "")], halt := .unknownSubcommand }
    | _, _ => some { out := [], halt := .indexOutOfRange }

/-! ## Observations used to state the properties -/

/-- The values the options of a sub-command resolved to once its flag set has
parsed the command line: what `*…TextPtr`, `*…MetricPtr`, `*countSubstringPtr`
and `*…UniquePtr` hold.  The `list` set has no `substring` flag; its entry
reads as the empty string. -/
structure Resolved where
  text : String
  metric : String
  substring : String
  unique : Bool
  deriving DecidableEq, Repr

/-- Read the four option variables of a flag set. -/
def FlagSet.resolved (f : FlagSet) : Resolved :=
  { text := f.getString "text", metric := f.getString "metric",
    substring := f.getString "substring", unique := f.getBool "unique" }

/-- The option values after `f.Parse(rest)` returned without error; `none`
when parsing stopped the process instead. -/
def resolve (f : FlagSet) (rest : List String) : Option Resolved :=
  match f.Parse rest with
  | some (.ok f') => some f'.resolved
  | _ => none

/-- Is the event one of the two success lines (line 212 or lines 239-242)? -/
def Event.isSuccessLine : Event → Bool
  | .listLine _ _ _ => true
  | .countLine _ _ _ _ => true
  | _ => false

/-- Did the run print a success line? -/
def Outcome.printedSuccess (o : Outcome) : Bool :=
  o.out.any Event.isSuccessLine

/-! ## Facts about the `flag` model -/

theorem store_name (f : FlagSet) (n : String) (v : Value) : (f.store n v).name = f.name := rfl

theorem store_parsed (f : FlagSet) (n : String) (v : Value) :
    (f.store n v).parsed = f.parsed := rfl

theorem store_args (f : FlagSet) (n : String) (v : Value) : (f.store n v).args = f.args := rfl

/-- Each branch of `parseFlag` leaves `name` and `parsed` alone, and a branch
that reports `seen` leaves at most the arguments after the flag token. -/
theorem parseFlag_spec (f : FlagSet) (s : String) (name : List Char) (rest : List String) :
    (f.parseFlag s name rest).1.name = f.name ∧
    (f.parseFlag s name rest).1.parsed = f.parsed ∧
    ((f.parseFlag s name rest).2.1 = true →
      (f.parseFlag s name rest).1.args.length ≤ rest.length) := by
  unfold FlagSet.parseFlag
  split
  · simp
  · split
    · simp
    · simp only
      split
      · split <;> simp
      · split
        · split <;> simp [store_name, store_parsed, store_args]
        · split
          · simp [store_name, store_parsed, store_args]
          · split
            · rename_i h
              simp [store_name, store_parsed, store_args, h]
            · simp

/-- The method `parseOne` leaves `name` and `parsed` alone, and when it reports `seen` it
has consumed at least one argument. -/
theorem parseOne_spec (f : FlagSet) :
    f.parseOne.1.name = f.name ∧ f.parseOne.1.parsed = f.parsed ∧
    (f.parseOne.2.1 = true → f.parseOne.1.args.length < f.args.length) := by
  unfold FlagSet.parseOne
  split
  · simp
  · rename_i s rest hargs
    have h1 := parseFlag_spec f s
    split
    · simp
    · refine ⟨(h1 _ _).1, (h1 _ _).2.1, fun h => ?_⟩
      have := (h1 _ _).2.2 h
      simp only [hargs, List.length_cons]; omega
    · refine ⟨(h1 _ _).1, (h1 _ _).2.1, fun h => ?_⟩
      have := (h1 _ _).2.2 h
      simp only [hargs, List.length_cons]; omega
    · simp

/-- Enough fuel: the loop of `Parse` ends within `len(args) + 1` iterations. -/
theorem parseLoop_isSome (fuel : Nat) (f : FlagSet) (h : f.args.length < fuel) :
    (FlagSet.parseLoop fuel f).isSome = true := by
  induction fuel generalizing f with
  | zero => omega
  | succ n ih =>
    unfold FlagSet.parseLoop
    have hs := (parseOne_spec f).2.2
    split
    · rename_i f' _ heq
      apply ih
      have := hs (by rw [heq])
      rw [heq] at this
      simp only at this
      omega
    · rfl
    · rfl

/-- The loop of `Parse` leaves `name` and `parsed` alone. -/
theorem parseLoop_ok (fuel : Nat) (f f' : FlagSet)
    (h : FlagSet.parseLoop fuel f = some (.ok f')) :
    f'.name = f.name ∧ f'.parsed = f.parsed := by
  induction fuel generalizing f with
  | zero => simp [FlagSet.parseLoop] at h
  | succ n ih =>
    unfold FlagSet.parseLoop at h
    have hs := parseOne_spec f
    split at h
    · rename_i f1 _ heq
      rw [heq] at hs
      obtain ⟨a, b⟩ := ih f1 h
      exact ⟨a.trans hs.1, b.trans hs.2.1⟩
    · rename_i f1 heq
      rw [heq] at hs
      simp only [Option.some.injEq, Except.ok.injEq] at h
      subst h
      exact ⟨hs.1, hs.2.1⟩
    · simp at h

/-- The method `Parse` always comes back: the fuel it is given is enough. -/
theorem Parse_isSome (f : FlagSet) (arguments : List String) :
    (f.Parse arguments).isSome = true := by
  unfold FlagSet.Parse
  apply parseLoop_isSome
  simp

/-- After a successful `Parse` the set is marked parsed and keeps its name. -/
theorem Parse_ok (f f' : FlagSet) (arguments : List String)
    (h : f.Parse arguments = some (.ok f')) : f'.name = f.name ∧ f'.parsed = true := by
  unfold FlagSet.Parse at h
  exact parseLoop_ok _ _ _ h

/-- The function `prog2` always finishes (the fuel of the `Parse` loop never runs out). -/
theorem prog2_isSome (osArgs : List String) : (prog2 osArgs).isSome = true := by
  unfold prog2
  split
  · rfl
  · split
    · split
      · have := Parse_isSome listCommand ‹_›
        split <;> simp_all
      · split
        · have := Parse_isSome countCommand ‹_›
          split <;> simp_all
        · rfl
    · rfl

/-! ## Facts about `prog2` -/

theorem resolve_eq_some (f : FlagSet) (rest : List String) (v : Resolved)
    (h : resolve f rest = some v) : ∃ f', f.Parse rest = some (.ok f') ∧ f'.resolved = v := by
  unfold resolve at h
  split at h
  · rename_i f' heq
    exact ⟨f', heq, by simpa using h⟩
  · simp at h

theorem listCommand_metric : listCommand.getString "metric" = "chars" := by decide

/-- A run `prog list rest…` whose parse succeeds continues with the checks of
lines 197-245 on the parsed `list` set and the untouched `count` set. -/
theorem prog2_list (a0 : String) (rest : List String) (l : FlagSet)
    (h : listCommand.Parse rest = some (.ok l)) :
    prog2 (a0 :: "list" :: rest) = some (validate countCommand l) := by
  simp [prog2, sliceFrom2, h]

/-- A run `prog count rest…` whose parse succeeds continues with the checks of
lines 197-245 on the parsed `count` set and the untouched `list` set. -/
theorem prog2_count (a0 : String) (rest : List String) (c : FlagSet)
    (h : countCommand.Parse rest = some (.ok c)) :
    prog2 (a0 :: "count" :: rest) = some (validate c listCommand) := by
  have hne : ¬ ("count" = "list") := by decide
  simp [prog2, sliceFrom2, h, hne]

/-- Lines 197-245 when `list` was the set parsed. -/
theorem validate_list (l : FlagSet) (hp : l.parsed = true) (hn : l.name = "list") :
    validate countCommand l =
      if l.getString "text" = "" then
        { out := [.printDefaults "list"], halt := .listTextRequired }
      else if l.getString "metric" ∉ listMetricChoices then
        { out := [.printDefaults "list"], halt := .listMetricChoice }
      else
        { out := [.listLine (l.getString "text") (l.getString "metric") (l.getBool "unique")],
          halt := .returned } := by
  have hc : countCommand.parsed = false := rfl
  unfold validate listBlock countBlock
  simp only [hp, hn, hc, if_true, List.nil_append, Bool.false_eq_true, if_false]
  split_ifs <;> rfl

/-- Lines 197-245 when `count` was the set parsed. -/
theorem validate_count (c : FlagSet) (hp : c.parsed = true) (hn : c.name = "count") :
    validate c listCommand =
      if c.getString "text" = "" then
        { out := [.printDefaults "count"], halt := .countTextRequired }
      else if c.getString "metric" = "substring" ∧ c.getString "substring" = "" then
        { out := [.printDefaults "count"], halt := .countSubstringRequired }
      else if c.getString "metric" ≠ "substring" ∧ c.getString "substring" ≠ "" then
        { out := [.println "--substring may only be used with --metric=substring.",
                  .printDefaults "count"],
          halt := .countSubstringForbidden }
      else
        { out := [.countLine (c.getString "text") (c.getString "metric")
                    (c.getString "substring") (c.getBool "unique")],
          halt := .returned } := by
  have hl : listCommand.parsed = false := rfl
  have hm : listCommand.getString "metric" ∈ countMetricChoices := by decide
  unfold validate listBlock countBlock
  simp only [hp, hn, hl, hm, if_true, List.nil_append, not_true_eq_false, if_false,
    Bool.false_eq_true]
  split_ifs <;> rfl

/-- The outcome of `prog list rest…` in terms of the resolved option values. -/
theorem prog2_list_resolved (a0 : String) (rest : List String) (v : Resolved)
    (h : resolve listCommand rest = some v) :
    prog2 (a0 :: "list" :: rest) = some (
      if v.text = "" then
        { out := [.printDefaults "list"], halt := .listTextRequired }
      else if v.metric ∉ listMetricChoices then
        { out := [.printDefaults "list"], halt := .listMetricChoice }
      else
        { out := [.listLine v.text v.metric v.unique], halt := .returned }) := by
  obtain ⟨l, hparse, rfl⟩ := resolve_eq_some _ _ _ h
  obtain ⟨hn, hp⟩ := Parse_ok _ _ _ hparse
  rw [prog2_list a0 rest l hparse, validate_list l hp hn]
  rfl

/-- The outcome of `prog count rest…` in terms of the resolved option values. -/
theorem prog2_count_resolved (a0 : String) (rest : List String) (v : Resolved)
    (h : resolve countCommand rest = some v) :
    prog2 (a0 :: "count" :: rest) = some (
      if v.text = "" then
        { out := [.printDefaults "count"], halt := .countTextRequired }
      else if v.metric = "substring" ∧ v.substring = "" then
        { out := [.printDefaults "count"], halt := .countSubstringRequired }
      else if v.metric ≠ "substring" ∧ v.substring ≠ "" then
        { out := [.println "--substring may only be used with --metric=substring.",
                  .printDefaults "count"],
          halt := .countSubstringForbidden }
      else
        { out := [.countLine v.text v.metric v.substring v.unique], halt := .returned }) := by
  obtain ⟨c, hparse, rfl⟩ := resolve_eq_some _ _ _ h
  obtain ⟨hn, hp⟩ := Parse_ok _ _ _ hparse
  rw [prog2_count a0 rest c hparse, validate_count c hp hn]
  rfl

/-- A string flag takes the next argument verbatim, whatever it is: the parse
of `-text t -metric m -substring s`. -/
theorem resolve_count_text_metric_substring (t m s : String) :
    resolve countCommand ["-text", t, "-metric", m, "-substring", s] =
      some { text := t, metric := m, substring := s, unique := false } := by
  rfl

/-- A run `prog list rest…` whose parse fails ends inside `Parse`. -/
theorem prog2_list_error (a0 : String) (rest : List String) (err : FlagError)
    (h : listCommand.Parse rest = some (.error err)) :
    prog2 (a0 :: "list" :: rest) = some (exitOnError "list" err) := by
  have hlen : ¬ (rest.length + 1 + 1 < 2) := by omega
  simp [prog2, sliceFrom2, h, hlen]
  rfl

/-- A run `prog count rest…` whose parse fails ends inside `Parse`. -/
theorem prog2_count_error (a0 : String) (rest : List String) (err : FlagError)
    (h : countCommand.Parse rest = some (.error err)) :
    prog2 (a0 :: "count" :: rest) = some (exitOnError "count" err) := by
  have hne : ¬ ("count" = "list") := by decide
  have hlen : ¬ (rest.length + 1 + 1 < 2) := by omega
  simp [prog2, sliceFrom2, h, hne, hlen]
  rfl

/-- The `default` case of the switch: lines 193-194. -/
theorem prog2_unknown (a0 sub : String) (rest : List String)
    (h1 : sub ≠ "list") (h2 : sub ≠ "count") :
    prog2 (a0 :: sub :: rest) =
      some { out := [.printDefaults a0], halt := .unknownSubcommand } := by
  have hlen : ¬ (rest.length + 1 + 1 < 2) := by omega
  simp [prog2, sliceFrom2, h1, h2, hlen]

/-- Lines 178-181: fewer than two elements in `os.Args`. -/
theorem prog2_short (osArgs : List String) (h : osArgs.length < 2) :
    prog2 osArgs =
      some { out := [.println "list or count subcommand is required"],
             halt := .missingSubcommand } := by
  simp [prog2, h]

/-- Every way a run of `prog2` can end, by the shape of `os.Args`. -/
theorem prog2_cases (osArgs : List String) (o : Outcome) (h : prog2 osArgs = some o) :
    o.halt = .missingSubcommand ∨ o.halt = .unknownSubcommand ∨
    o.halt = .flagHelp ∨ o.halt = .flagParseError ∨
    (∃ l, l.parsed = true ∧ l.name = "list" ∧ o = validate countCommand l) ∨
    (∃ c, c.parsed = true ∧ c.name = "count" ∧ o = validate c listCommand) := by
  match osArgs with
  | [] => rw [prog2_short [] (by simp)] at h; cases h; simp
  | [a] => rw [prog2_short [a] (by simp)] at h; cases h; simp
  | a0 :: sub :: rest =>
    by_cases h1 : sub = "list"
    · subst h1
      cases hp : listCommand.Parse rest with
      | none => have := Parse_isSome listCommand rest; simp [hp] at this
      | some r =>
        cases r with
        | error err =>
          rw [prog2_list_error a0 rest err hp] at h
          cases h
          by_cases he : err = .help <;> simp [exitOnError, he]
        | ok l =>
          obtain ⟨hn, hpd⟩ := Parse_ok _ _ _ hp
          rw [prog2_list a0 rest l hp] at h
          cases h
          exact Or.inr (Or.inr (Or.inr (Or.inr (Or.inl ⟨l, hpd, hn, rfl⟩))))
    · by_cases h2 : sub = "count"
      · subst h2
        cases hp : countCommand.Parse rest with
        | none => have := Parse_isSome countCommand rest; simp [hp] at this
        | some r =>
          cases r with
          | error err =>
            rw [prog2_count_error a0 rest err hp] at h
            cases h
            by_cases he : err = .help <;> simp [exitOnError, he]
          | ok c =>
            obtain ⟨hn, hpd⟩ := Parse_ok _ _ _ hp
            rw [prog2_count a0 rest c hp] at h
            cases h
            exact Or.inr (Or.inr (Or.inr (Or.inr (Or.inr ⟨c, hpd, hn, rfl⟩))))
      · rw [prog2_unknown a0 sub rest h1 h2] at h
        cases h; simp

/-- No run of `prog2` indexes or slices `os.Args` out of range. -/
theorem prog2_no_panic (osArgs : List String) (o : Outcome) (h : prog2 osArgs = some o) :
    o.halt ≠ .indexOutOfRange := by
  rcases prog2_cases osArgs o h with h | h | h | h | ⟨l, hp, hn, rfl⟩ | ⟨c, hp, hn, rfl⟩
  · simp [h]
  · simp [h]
  · simp [h]
  · simp [h]
  · rw [validate_list l hp hn]; split_ifs <;> simp
  · rw [validate_count c hp hn]; split_ifs <;> simp

/-- The choice lookup of the `count` block (line 234) never ends a run: in no
run does the process stop at line 236. -/
theorem prog2_never_countMetricChoice (osArgs : List String) (o : Outcome)
    (h : prog2 osArgs = some o) : o.halt ≠ .countMetricChoice := by
  rcases prog2_cases osArgs o h with h | h | h | h | ⟨l, hp, hn, rfl⟩ | ⟨c, hp, hn, rfl⟩
  · simp [h]
  · simp [h]
  · simp [h]
  · simp [h]
  · rw [validate_list l hp hn]; split_ifs <;> simp
  · rw [validate_count c hp hn]; split_ifs <;> simp

/-! ## The claims -/

/-- Claim C1, evaluated on the code at `count -text x -metric bogus`: the metric
resolves to `bogus`, which is not a key of count's choice map, and still the
run prints the success line and returns with status 0 rather than stopping
with status 1. -/
theorem C1_count_bogus_metric_accepted :
    resolve countCommand ["-text", "x", "-metric", "bogus"] =
      some { text := "x", metric := "bogus", substring := "", unique := false } ∧
    "bogus" ∉ countMetricChoices ∧
    prog2 ["prog", "count", "-text", "x", "-metric", "bogus"] =
      some { out := [.countLine "x" "bogus" "" false], halt := .returned } ∧
    Halt.status .returned = 0 := by
  decide

/-- Claim C2: a `count` run whose text resolves non-empty, whose metric resolves to
`substring` and whose substring resolves empty (absent or given empty) prints
count's defaults, stops at line 224 with status 1 and prints no success
line. -/
theorem C2_count_substring_required (a0 : String) (rest : List String) (v : Resolved)
    (hres : resolve countCommand rest = some v) (htext : v.text ≠ "")
    (hmetric : v.metric = "substring") (hsub : v.substring = "") :
    ∃ o, prog2 (a0 :: "count" :: rest) = some o ∧ o.out = [.printDefaults "count"] ∧
      o.halt = .countSubstringRequired ∧ o.halt.status = 1 ∧ o.printedSuccess = false := by
  refine ⟨_, prog2_count_resolved a0 rest v hres, ?_⟩
  simp [htext, hmetric, hsub, Halt.status, Outcome.printedSuccess, Event.isSuccessLine]

/-- Claim C2 at `count -text hello -metric substring`. -/
theorem C2_count_substring_required_witness :
    resolve countCommand ["-text", "hello", "-metric", "substring"] =
      some { text := "hello", metric := "substring", substring := "", unique := false } ∧
    ∃ o, prog2 ["prog", "count", "-text", "hello", "-metric", "substring"] = some o ∧
      o.out = [.printDefaults "count"] ∧ o.halt = .countSubstringRequired ∧
      o.halt.status = 1 ∧ o.printedSuccess = false :=
  ⟨by decide,
   C2_count_substring_required "prog" ["-text", "hello", "-metric", "substring"]
    { text := "hello", metric := "substring", substring := "", unique := false }
    (by decide) (by decide) (by decide) (by decide)⟩

/-- Claim C3: a `count` run whose text resolves non-empty, whose metric resolves to
anything but `substring` (the default `chars` included) and whose substring
resolves non-empty prints the "may only be used" message and count's defaults,
stops at line 230 with status 1 and prints no success line. -/
theorem C3_count_substring_forbidden (a0 : String) (rest : List String) (v : Resolved)
    (hres : resolve countCommand rest = some v) (htext : v.text ≠ "")
    (hmetric : v.metric ≠ "substring") (hsub : v.substring ≠ "") :
    ∃ o, prog2 (a0 :: "count" :: rest) = some o ∧
      o.out = [.println "--substring may only be used with --metric=substring.",
               .printDefaults "count"] ∧
      o.halt = .countSubstringForbidden ∧ o.halt.status = 1 ∧ o.printedSuccess = false := by
  refine ⟨_, prog2_count_resolved a0 rest v hres, ?_⟩
  simp [htext, hmetric, hsub, Halt.status, Outcome.printedSuccess, Event.isSuccessLine]

/-- Claim C3 at `count -text hello -substring l`, where the metric is the default
`chars`. -/
theorem C3_count_substring_forbidden_witness :
    resolve countCommand ["-text", "hello", "-substring", "l"] =
      some { text := "hello", metric := "chars", substring := "l", unique := false } ∧
    ∃ o, prog2 ["prog", "count", "-text", "hello", "-substring", "l"] = some o ∧
      o.out = [.println "--substring may only be used with --metric=substring.",
               .printDefaults "count"] ∧
      o.halt = .countSubstringForbidden ∧ o.halt.status = 1 ∧ o.printedSuccess = false :=
  ⟨by decide,
   C3_count_substring_forbidden "prog" ["-text", "hello", "-substring", "l"]
    { text := "hello", metric := "chars", substring := "l", unique := false }
    (by decide) (by decide) (by decide) (by decide)⟩

/-- Claim C4: for non-empty `t` and `s`, `count -text t -metric substring -substring s`
resolves to text `t`, metric `substring`, substring `s`, unique `false`, and
the run prints exactly the success line with those values and returns with
status 0; no failure branch is taken. -/
theorem C4_count_substring_success (a0 t s : String) (ht : t ≠ "") (hs : s ≠ "") :
    resolve countCommand ["-text", t, "-metric", "substring", "-substring", s] =
      some { text := t, metric := "substring", substring := s, unique := false } ∧
    ∃ o, prog2 [a0, "count", "-text", t, "-metric", "substring", "-substring", s] = some o ∧
      o.out = [.countLine t "substring" s false] ∧ o.halt = .returned ∧
      o.halt.status = 0 := by
  have hres := resolve_count_text_metric_substring t "substring" s
  refine ⟨hres, _, prog2_count_resolved a0 _ _ hres, ?_⟩
  simp [ht, hs, Halt.status]

/-- Claim C4 at `t = "hello"`, `s = "l"`. -/
theorem C4_count_substring_success_witness :
    "hello" ≠ "" ∧ "l" ≠ "" ∧
    resolve countCommand ["-text", "hello", "-metric", "substring", "-substring", "l"] =
      some { text := "hello", metric := "substring", substring := "l", unique := false } ∧
    ∃ o, prog2 ["prog", "count", "-text", "hello", "-metric", "substring", "-substring", "l"]
        = some o ∧
      o.out = [.countLine "hello" "substring" "l" false] ∧ o.halt = .returned ∧
      o.halt.status = 0 :=
  ⟨by decide, by decide,
   C4_count_substring_success "prog" "hello" "l" (by decide) (by decide)⟩

/-- Claim C5: for a `list` run whose text resolves non-empty, a metric outside
`chars`, `words`, `lines` (so also `substring`) makes the run print list's
defaults and stop at line 209 with status 1 without a success line, and a
metric inside that set makes the run print exactly the success line echoing
text, metric and unique, and return with status 0. -/
theorem C5_list_metric_choice (a0 : String) (rest : List String) (v : Resolved)
    (hres : resolve listCommand rest = some v) (htext : v.text ≠ "") :
    (v.metric ∉ ["chars", "words", "lines"] →
      ∃ o, prog2 (a0 :: "list" :: rest) = some o ∧ o.out = [.printDefaults "list"] ∧
        o.halt = .listMetricChoice ∧ o.halt.status = 1 ∧ o.printedSuccess = false) ∧
    (v.metric ∈ ["chars", "words", "lines"] →
      ∃ o, prog2 (a0 :: "list" :: rest) = some o ∧
        o.out = [.listLine v.text v.metric v.unique] ∧ o.halt = .returned ∧
        o.halt.status = 0) := by
  have h := prog2_list_resolved a0 rest v hres
  constructor
  · intro hm
    refine ⟨_, h, ?_⟩
    have hm' : v.metric ∉ listMetricChoices := hm
    simp [htext, hm', Halt.status, Outcome.printedSuccess, Event.isSuccessLine]
  · intro hm
    refine ⟨_, h, ?_⟩
    have hm' : v.metric ∈ listMetricChoices := hm
    simp [htext, hm', Halt.status]

/-- Claim C5 at `list -metric bogus -text x`, `list -metric substring -text x` and
`list -metric words -text x -unique`. -/
theorem C5_list_metric_choice_witness :
    (resolve listCommand ["-metric", "bogus", "-text", "x"] =
        some { text := "x", metric := "bogus", substring := "", unique := false } ∧
      ∃ o, prog2 ["prog", "list", "-metric", "bogus", "-text", "x"] = some o ∧
        o.out = [.printDefaults "list"] ∧ o.halt = .listMetricChoice ∧
        o.halt.status = 1 ∧ o.printedSuccess = false) ∧
    (resolve listCommand ["-metric", "substring", "-text", "x"] =
        some { text := "x", metric := "substring", substring := "", unique := false } ∧
      ∃ o, prog2 ["prog", "list", "-metric", "substring", "-text", "x"] = some o ∧
        o.out = [.printDefaults "list"] ∧ o.halt = .listMetricChoice ∧
        o.halt.status = 1 ∧ o.printedSuccess = false) ∧
    (resolve listCommand ["-metric", "words", "-text", "x", "-unique"] =
        some { text := "x", metric := "words", substring := "", unique := true } ∧
      ∃ o, prog2 ["prog", "list", "-metric", "words", "-text", "x", "-unique"] = some o ∧
        o.out = [.listLine "x" "words" true] ∧ o.halt = .returned ∧ o.halt.status = 0) :=
  ⟨⟨by decide,
    (C5_list_metric_choice "prog" ["-metric", "bogus", "-text", "x"]
      { text := "x", metric := "bogus", substring := "", unique := false }
      (by decide) (by decide)).1 (by decide)⟩,
   ⟨by decide,
    (C5_list_metric_choice "prog" ["-metric", "substring", "-text", "x"]
      { text := "x", metric := "substring", substring := "", unique := false }
      (by decide) (by decide)).1 (by decide)⟩,
   ⟨by decide,
    (C5_list_metric_choice "prog" ["-metric", "words", "-text", "x", "-unique"]
      { text := "x", metric := "words", substring := "", unique := true }
      (by decide) (by decide)).2 (by decide)⟩⟩

/-- Claim C6: `list` and `count` with no further tokens resolve every option to its
default (text empty, metric `chars`, substring empty, unique false) and the
run prints the set's defaults and stops with status 1 at the required-text
check; and any `list` or `count` run whose text resolves empty stops there with
status 1, whatever the other options resolve to. -/
theorem C6_empty_text_fails (a0 : String) (rest : List String) (v : Resolved)
    (htext : v.text = "") :
    (resolve listCommand [] =
        some { text := "", metric := "chars", substring := "", unique := false } ∧
      prog2 [a0, "list"] = some { out := [.printDefaults "list"], halt := .listTextRequired }) ∧
    (resolve countCommand [] =
        some { text := "", metric := "chars", substring := "", unique := false } ∧
      prog2 [a0, "count"] =
        some { out := [.printDefaults "count"], halt := .countTextRequired }) ∧
    (resolve listCommand rest = some v →
      prog2 (a0 :: "list" :: rest) =
        some { out := [.printDefaults "list"], halt := .listTextRequired }) ∧
    (resolve countCommand rest = some v →
      prog2 (a0 :: "count" :: rest) =
        some { out := [.printDefaults "count"], halt := .countTextRequired }) ∧
    Halt.status .listTextRequired = 1 ∧ Halt.status .countTextRequired = 1 := by
  have hl : resolve listCommand [] =
      some { text := "", metric := "chars", substring := "", unique := false } := by decide
  have hc : resolve countCommand [] =
      some { text := "", metric := "chars", substring := "", unique := false } := by decide
  refine ⟨⟨hl, ?_⟩, ⟨hc, ?_⟩, ?_, ?_, rfl, rfl⟩
  · rw [prog2_list_resolved a0 [] _ hl]; rfl
  · rw [prog2_count_resolved a0 [] _ hc]; rfl
  · intro h
    rw [prog2_list_resolved a0 rest v h]
    simp [htext]
  · intro h
    rw [prog2_count_resolved a0 rest v h]
    simp [htext]

/-- Claim C6 at `-metric bogus -substring l -unique` (text left empty), for both
sub-commands; `list` has no `-substring` flag, so it gets `-metric bogus
-unique`. -/
theorem C6_empty_text_fails_witness :
    resolve countCommand ["-metric", "bogus", "-substring", "l", "-unique"] =
      some { text := "", metric := "bogus", substring := "l", unique := true } ∧
    prog2 ["prog", "count", "-metric", "bogus", "-substring", "l", "-unique"] =
      some { out := [.printDefaults "count"], halt := .countTextRequired } ∧
    resolve listCommand ["-metric", "bogus", "-unique"] =
      some { text := "", metric := "bogus", substring := "", unique := true } ∧
    prog2 ["prog", "list", "-metric", "bogus", "-unique"] =
      some { out := [.printDefaults "list"], halt := .listTextRequired } :=
  ⟨by decide,
   (C6_empty_text_fails "prog" ["-metric", "bogus", "-substring", "l", "-unique"]
      { text := "", metric := "bogus", substring := "l", unique := true } rfl).2.2.2.1
      (by decide),
   by decide,
   (C6_empty_text_fails "prog" ["-metric", "bogus", "-unique"]
      { text := "", metric := "bogus", substring := "", unique := true } rfl).2.2.1
      (by decide)⟩

/-- Claim C7: when `os.Args[1]` is neither `list` nor `count` (compared exactly), the
run prints the defaults of the global flag set, stops at line 194 with status
1, and prints no success line; no sub-command block is reached. -/
theorem C7_unknown_subcommand (a0 sub : String) (rest : List String)
    (hlist : sub ≠ "list") (hcount : sub ≠ "count") :
    ∃ o, prog2 (a0 :: sub :: rest) = some o ∧ o.out = [.printDefaults a0] ∧
      o.halt = .unknownSubcommand ∧ o.halt.status = 1 ∧ o.printedSuccess = false := by
  refine ⟨_, prog2_unknown a0 sub rest hlist hcount, ?_⟩
  simp [Halt.status, Outcome.printedSuccess, Event.isSuccessLine]

/-- Claim C7 at `nope`, at the case variant `List` and at the prefix `lis`, each
followed by flags that would be valid for `list`. -/
theorem C7_unknown_subcommand_witness :
    (∃ o, prog2 ["prog", "nope"] = some o ∧ o.out = [.printDefaults "prog"] ∧
      o.halt = .unknownSubcommand ∧ o.halt.status = 1 ∧ o.printedSuccess = false) ∧
    (∃ o, prog2 ["prog", "List", "-text", "x"] = some o ∧ o.out = [.printDefaults "prog"] ∧
      o.halt = .unknownSubcommand ∧ o.halt.status = 1 ∧ o.printedSuccess = false) ∧
    (∃ o, prog2 ["prog", "lis", "-text", "x"] = some o ∧ o.out = [.printDefaults "prog"] ∧
      o.halt = .unknownSubcommand ∧ o.halt.status = 1 ∧ o.printedSuccess = false) :=
  ⟨C7_unknown_subcommand "prog" "nope" [] (by decide) (by decide),
   C7_unknown_subcommand "prog" "List" ["-text", "x"] (by decide) (by decide),
   C7_unknown_subcommand "prog" "lis" ["-text", "x"] (by decide) (by decide)⟩

/-- Claim C8: when `len(os.Args) < 2` the run prints "list or count subcommand is
required" and stops at line 180 with status 1; it does not panic on an index
out of range, and it ends before the switch that parses a flag set (no output
of the `flag` package, no defaults, no success line). -/
theorem C8_missing_subcommand (osArgs : List String) (hlen : osArgs.length < 2) :
    ∃ o, prog2 osArgs = some o ∧
      o.out = [.println "list or count subcommand is required"] ∧
      o.halt = .missingSubcommand ∧ o.halt.status = 1 ∧ o.halt ≠ .indexOutOfRange ∧
      o.halt ≠ .flagHelp ∧ o.halt ≠ .flagParseError := by
  refine ⟨_, prog2_short osArgs hlen, ?_⟩
  simp [Halt.status]

/-- Claim C8 at `os.Args = ["prog"]` and at the empty `os.Args`. -/
theorem C8_missing_subcommand_witness :
    (∃ o, prog2 ["prog"] = some o ∧
      o.out = [.println "list or count subcommand is required"] ∧
      o.halt = .missingSubcommand ∧ o.halt.status = 1 ∧ o.halt ≠ .indexOutOfRange ∧
      o.halt ≠ .flagHelp ∧ o.halt ≠ .flagParseError) ∧
    (∃ o, prog2 [] = some o ∧
      o.out = [.println "list or count subcommand is required"] ∧
      o.halt = .missingSubcommand ∧ o.halt.status = 1 ∧ o.halt ≠ .indexOutOfRange ∧
      o.halt ≠ .flagHelp ∧ o.halt ≠ .flagParseError) :=
  ⟨C8_missing_subcommand ["prog"] (by decide), C8_missing_subcommand [] (by decide)⟩

/-- Claim C9 as stated fails at `count -text x -metric bogus -substring l`: the metric
`bogus` is outside count's choice set and the substring rule is violated too,
and the run stops at the substring rule (line 230), not at the choice lookup
(line 236), after printing "--substring may only be used with
--metric=substring.". -/
theorem C9_count_choice_not_before_substring :
    resolve countCommand ["-text", "x", "-metric", "bogus", "-substring", "l"] =
      some { text := "x", metric := "bogus", substring := "l", unique := false } ∧
    "bogus" ∉ countMetricChoices ∧
    prog2 ["prog", "count", "-text", "x", "-metric", "bogus", "-substring", "l"] =
      some { out := [.println "--substring may only be used with --metric=substring.",
                     .printDefaults "count"],
             halt := .countSubstringForbidden } ∧
    ¬ (∃ o, prog2 ["prog", "count", "-text", "x", "-metric", "bogus", "-substring", "l"] = some o ∧
        o.halt = .countMetricChoice ∧
        Event.println "--substring may only be used with --metric=substring." ∉ o.out) := by
  have h : prog2 ["prog", "count", "-text", "x", "-metric", "bogus", "-substring", "l"] =
      some { out := [.println "--substring may only be used with --metric=substring.",
                     .printDefaults "count"],
             halt := .countSubstringForbidden } := by decide
  refine ⟨by decide, by decide, h, ?_⟩
  rintro ⟨o, ho, hhalt, -⟩
  rw [h] at ho
  cases ho
  exact absurd hhalt (by decide)

/-- Claim C9, amended: validation stops at the first violated rule, in the order the
checks are written.  In `list`: required text, then the metric choice set.  In
`count`: required text, then "substring required when metric is substring",
then "substring forbidden unless metric is substring" (the only rule that
prints a message), all of them ahead of the choice lookup.  An empty text
decides the failure whatever the other options hold, and a forbidden substring
decides it whether or not the metric is in the choice set. -/
theorem C9_validation_order (a0 : String) (rest : List String) (v : Resolved) :
    (resolve listCommand rest = some v →
      (v.text = "" →
        prog2 (a0 :: "list" :: rest) =
          some { out := [.printDefaults "list"], halt := .listTextRequired }) ∧
      (v.text ≠ "" → v.metric ∉ listMetricChoices →
        prog2 (a0 :: "list" :: rest) =
          some { out := [.printDefaults "list"], halt := .listMetricChoice })) ∧
    (resolve countCommand rest = some v →
      (v.text = "" →
        prog2 (a0 :: "count" :: rest) =
          some { out := [.printDefaults "count"], halt := .countTextRequired }) ∧
      (v.text ≠ "" → v.metric = "substring" → v.substring = "" →
        prog2 (a0 :: "count" :: rest) =
          some { out := [.printDefaults "count"], halt := .countSubstringRequired }) ∧
      (v.text ≠ "" → v.metric ≠ "substring" → v.substring ≠ "" →
        prog2 (a0 :: "count" :: rest) =
          some { out := [.println "--substring may only be used with --metric=substring.",
                         .printDefaults "count"],
                 halt := .countSubstringForbidden })) := by
  constructor
  · intro h
    have hp := prog2_list_resolved a0 rest v h
    refine ⟨fun h1 => ?_, fun h1 h2 => ?_⟩
    · rw [hp]; simp [h1]
    · rw [hp]; simp [h1, h2]
  · intro h
    have hp := prog2_count_resolved a0 rest v h
    refine ⟨fun h1 => ?_, fun h1 h2 h3 => ?_, fun h1 h2 h3 => ?_⟩
    · rw [hp]; simp [h1]
    · rw [hp]; simp [h1, h2, h3]
    · rw [hp]; simp [h1, h2, h3]

/-- Claim C9, amended, at `count -text x -metric bogus -substring l` (the substring
rule decides), at `count -metric bogus -substring l` (the text rule decides and
no message is printed) and at `list -metric bogus` (the text rule decides). -/
theorem C9_validation_order_witness :
    prog2 ["prog", "count", "-text", "x", "-metric", "bogus", "-substring", "l"] =
      some { out := [.println "--substring may only be used with --metric=substring.",
                     .printDefaults "count"],
             halt := .countSubstringForbidden } ∧
    prog2 ["prog", "count", "-metric", "bogus", "-substring", "l"] =
      some { out := [.printDefaults "count"], halt := .countTextRequired } ∧
    prog2 ["prog", "list", "-metric", "bogus"] =
      some { out := [.printDefaults "list"], halt := .listTextRequired } :=
  ⟨((C9_validation_order "prog" ["-text", "x", "-metric", "bogus", "-substring", "l"]
      { text := "x", metric := "bogus", substring := "l", unique := false }).2
      (by decide)).2.2 (by decide) (by decide) (by decide),
   ((C9_validation_order "prog" ["-metric", "bogus", "-substring", "l"]
      { text := "", metric := "bogus", substring := "l", unique := false }).2
      (by decide)).1 (by decide),
   ((C9_validation_order "prog" ["-metric", "bogus"]
      { text := "", metric := "bogus", substring := "", unique := false }).1
      (by decide)).1 (by decide)⟩

/-- Claim C10: a `count` run whose options resolved to `v` prints its success line
exactly when the text is non-empty and (the metric is `substring` exactly when
the substring is non-empty), and then the run is that one line followed by a
normal return.  The choice lookup of line 234 rejects only on the metric of the
`list` set, which in a `count` run still holds its default `chars`, a key of
the map; so no run ever stops at line 236. -/
theorem C10_count_acceptance (a0 : String) (rest : List String) (v : Resolved)
    (hres : resolve countCommand rest = some v) :
    ((∃ o, prog2 (a0 :: "count" :: rest) = some o ∧ o.printedSuccess = true) ↔
      (v.text ≠ "" ∧ (v.metric = "substring" ↔ v.substring ≠ ""))) ∧
    ((v.text ≠ "" ∧ (v.metric = "substring" ↔ v.substring ≠ "")) →
      prog2 (a0 :: "count" :: rest) =
        some { out := [.countLine v.text v.metric v.substring v.unique], halt := .returned }) ∧
    (∀ (c l : FlagSet) (out : List Event) (o : Outcome),
      countBlock c l out = .error o → o.halt = .countMetricChoice →
        l.getString "metric" ∉ countMetricChoices) ∧
    listCommand.getString "metric" = "chars" ∧ "chars" ∈ countMetricChoices ∧
    (∀ osArgs o, prog2 osArgs = some o → o.halt ≠ .countMetricChoice) := by
  have hp := prog2_count_resolved a0 rest v hres
  refine ⟨?_, ?_, ?_, listCommand_metric, by decide, prog2_never_countMetricChoice⟩
  · rw [hp]
    by_cases h1 : v.text = ""
    · simp [h1, Outcome.printedSuccess, Event.isSuccessLine]
    · by_cases h2 : v.metric = "substring" <;> by_cases h3 : v.substring = "" <;>
        simp [h1, h2, h3, Outcome.printedSuccess, Event.isSuccessLine]
  · rintro ⟨h1, h2⟩
    rw [hp]
    by_cases h3 : v.metric = "substring"
    · have h4 := h2.mp h3
      simp [h1, h3, h4]
    · have h4 : v.substring = "" := by
        by_contra h; exact h3 (h2.mpr h)
      simp [h1, h3, h4]
  · intro c l out o h hh
    unfold countBlock at h
    split_ifs at h with p1 p2 p3 p4 p5
    all_goals first
      | exact p5
      | (cases h; simp at hh)

/-- Claim C10 at `count -text x -metric bogus -unique`: accepted, although `bogus` is
not a metric. -/
theorem C10_count_acceptance_witness :
    resolve countCommand ["-text", "x", "-metric", "bogus", "-unique"] =
      some { text := "x", metric := "bogus", substring := "", unique := true } ∧
    prog2 ["prog", "count", "-text", "x", "-metric", "bogus", "-unique"] =
      some { out := [.countLine "x" "bogus" "" true], halt := .returned } :=
  ⟨by decide,
   (C10_count_acceptance "prog" ["-text", "x", "-metric", "bogus", "-unique"]
      { text := "x", metric := "bogus", substring := "", unique := true } (by decide)).2.1
      (by decide)⟩

end GoCli
